import Mathlib

/-!
# Verification of the Setter.AI call-session core

Shallow embedding of the Setter.AI repository (`src/setter_ai`): the
outcome classifier and dialogue engine (`core/ai_logic.py`), the webhook
handlers (`web/routes.py`), the scheduler/call path (`web/app.py`), the
integrations (`integrations/ghl_integration.py`,
`integrations/twilio_integration.py`) and configuration loading
(`utils/config.py`).  Python dictionaries are modelled as association
lists, the SQLite tables as lists of record structures, and the external
collaborators (OpenAI, Twilio, the GHL HTTP API) as oracle parameters.
-/

/-! ## String utilities

Python's `in` operator on strings (substring test) and `str.lower`
(ASCII case folding; all strings in the repository are ASCII). -/

/-- `strIn needle hay` is Python's `needle in hay` on the character
lists: `true` iff `needle` occurs as a contiguous substring (the empty
needle occurs in every string). -/
def strIn (needle : List Char) : List Char → Bool
  | [] => needle.isEmpty
  | c :: t => needle.isPrefixOf (c :: t) || strIn needle t

/-- Python `needle in hay` on `String`. -/
def pyIn (needle hay : String) : Bool := strIn needle.data hay.data

/-- ASCII lower-casing of one character, as Python `str.lower` acts on
the ASCII range. -/
def lowerChar (c : Char) : Char :=
  if 65 ≤ c.toNat ∧ c.toNat ≤ 90 then Char.ofNat (c.toNat + 32) else c

/-- Python `s.lower()` (ASCII). -/
def pyLower (s : String) : String := ⟨s.data.map lowerChar⟩

/-- Python `s.strip()`: drops leading and trailing whitespace (the
same predicate as `String.trim`, by structural recursion so that
concrete runs reduce). -/
def pyStrip (s : String) : String :=
  ⟨((s.data.dropWhile Char.isWhitespace).reverse.dropWhile Char.isWhitespace).reverse⟩

/-! ## Conversation memory (`core/ai_logic.py`)

`AILogic.conversation_memory` maps a `call_id` to a list of message
dictionaries `{'speaker': …, 'content': …, 'timestamp': …}`. -/

/-- One entry of a conversation history, as appended by
`generate_response` / `store_user_response` in `core/ai_logic.py`. -/
structure Msg where
  speaker : String
  content : String
  timestamp : Nat
  deriving Repr, DecidableEq

/-- The default agent name (`ai_settings.agent_name` default in
`AILogic.__init__`). -/
def defaultAgentName : String := "Maayaa"

/-- `positive_keywords` of `analyze_conversation_outcome`. -/
def positive_keywords : List String :=
  ["interested", "yes", "sure", "okay", "good", "great", "perfect",
   "meeting", "schedule", "tomorrow", "call back", "definitely",
   "absolutely", "of course", "sounds good", "that works"]

/-- `negative_keywords` of `analyze_conversation_outcome`. -/
def negative_keywords : List String :=
  ["not interested", "no thanks", "busy", "not now", "later",
   "not available", "don\x27t call", "stop calling", "not interested",
   "no time", "too busy", "maybe later"]

/-- `meeting_keywords` of `analyze_conversation_outcome`. -/
def meeting_keywords : List String :=
  ["meeting", "schedule", "tomorrow", "3 p.m.", "3 pm", "appointment",
   "call back", "follow up", "set up", "book"]

/-- `user_responses`: lower-cased contents of the caller turns, in
order (`[msg['content'].lower() for msg in conversation if
msg['speaker'] == 'Caller']`). -/
def userResponses (conv : List Msg) : List String :=
  (conv.filter (fun m => m.speaker == "Caller")).map (fun m => pyLower m.content)

/-- The `positive_response` signal: some caller turn contains some
positive keyword as a substring. -/
def positiveResponse (conv : List Msg) : Bool :=
  (userResponses conv).any (fun r => positive_keywords.any (fun k => pyIn k r))

/-- The `negative_response` signal: some caller turn contains some
negative keyword as a substring. -/
def negativeResponse (conv : List Msg) : Bool :=
  (userResponses conv).any (fun r => negative_keywords.any (fun k => pyIn k r))

/-- The `meeting_scheduled` signal: some agent turn contains some
meeting keyword as a substring. -/
def meetingScheduled (agentName : String) (conv : List Msg) : Bool :=
  conv.any (fun m => m.speaker == agentName &&
    meeting_keywords.any (fun k => pyIn k (pyLower m.content)))

/-- `analyze_conversation_outcome`, outcome field.  The body of the
`try` block is total, so the `except` branch (outcome `'unknown'`) is
unreachable and the function is its pure core. -/
def analyze_conversation_outcome (agentName : String) (conv : List Msg) : String :=
  if positiveResponse conv && meetingScheduled agentName conv then "positive_meeting"
  else if positiveResponse conv then "positive"
  else if negativeResponse conv then "negative"
  else "neutral"

/-- Time words of the caller-turn scan in `extract_meeting_details`. -/
def time_words : List String :=
  ["pm", "am", "o\x27clock", "hour", "tomorrow", "today", "week",
   "3 p.m.", "3 pm", "3:00"]

/-- Agent keywords of the agent-turn scan in `extract_meeting_details`. -/
def agent_meeting_words : List String :=
  ["tomorrow", "3 p.m.", "3 pm", "schedule", "meeting"]

/-- The caller-turn scan of `extract_meeting_details`: the first
message in order whose speaker is `'Caller'` and whose lower-cased
content contains a time word; yields its literal content. -/
def callerMeetingTime (conv : List Msg) : Option String :=
  (conv.find? (fun m => m.speaker == "Caller" &&
      time_words.any (fun w => pyIn w (pyLower m.content)))).map (fun m => m.content)

/-- The agent-turn scan of `extract_meeting_details`: the first agent
message containing one of `agent_meeting_words` (the loop `break`s
there whether or not it then overwrites the result). -/
def agentMeetingScan (agentName : String) (conv : List Msg) : Option Msg :=
  conv.find? (fun m => m.speaker == agentName &&
    agent_meeting_words.any (fun k => pyIn k (pyLower m.content)))

/-- `extract_meeting_details`: the caller scan runs first; then the
agent scan breaks at the first agent message containing one of
`agent_meeting_words` and, if that message contains `'3 p.m.'` or
`'3 pm'`, overwrites the result with `'3:00 PM MST'`, else if it
contains `'tomorrow'`, with `'Tomorrow (Time TBD)'`, else leaves the
caller result in place. -/
def extract_meeting_details (agentName : String) (conv : List Msg) : Option String :=
  let fromCaller := callerMeetingTime conv
  match agentMeetingScan agentName conv with
  | none => fromCaller
  | some m =>
      let c := pyLower m.content
      if pyIn "3 p.m." c || pyIn "3 pm" c then some "3:00 PM MST"
      else if pyIn "tomorrow" c then some "Tomorrow (Time TBD)"
      else fromCaller

/-! ## Dialogue engine (`core/ai_logic.py`)

`conversation_memory` is a dict `call_id → list of messages`; every
read in the source is `self.conversation_memory.get(call_id, [])` and
every write appends (creating the entry first when absent), so a total
function with default `[]` is an exact model of its observable
behaviour. -/

/-- The in-memory conversation store `AILogic.conversation_memory`. -/
def Mem : Type := String → List Msg

/-- A lead dictionary; the source reads every field with
`.get(key, '')`, so absent keys are the empty string. -/
structure Lead where
  id : String := ""
  firstName : String := ""
  lastName : String := ""
  email : String := ""
  phone : String := ""
  deriving Repr, DecidableEq

/-- `lead_name = f"{lead_info.get('firstName','')} {lead_info.get('lastName','')}".strip()`. -/
def leadNameOf (lead : Lead) : String := pyStrip (lead.firstName ++ " " ++ lead.lastName)

/-- The default contact person (`ai_settings.contact_person` default). -/
def defaultContactPerson : String := "Ryan"

/-- The default company name (`ai_settings.company_name` default). -/
def defaultCompanyName : String := "LoanCater"

/-- The opening-stage prompt of `_build_system_prompt`
(`conversation_length == 0` branch). -/
def openingPrompt (agentName companyName contactPerson lead_name : String) : String :=
  "You are " ++ agentName ++ ", calling on behalf of " ++ contactPerson ++
  " from " ++ companyName ++ ".\n\n" ++
  "Start with a brief, warm introduction: \"Hi " ++ lead_name ++ ", this is " ++
  agentName ++ " calling on behalf of " ++ contactPerson ++ " from " ++
  companyName ++ ".\"\n" ++
  "Then ask if they have a quick moment to discuss business financing.\n\n" ++
  "Keep it short and natural - like a real person talking.\n" ++
  "Don\x27t give long speeches. Just introduce yourself and ask for their time.\n" ++
  "Speak quickly and efficiently - no gaps or delays.\n" ++
  "Respond immediately without hesitation."

/-- The qualification-stage prompt of `_build_system_prompt`
(`conversation_length <= 2` branch). -/
def qualificationPrompt (agentName companyName : String) : String :=
  "You are " ++ agentName ++ " from " ++ companyName ++
  ". Keep responses short and conversational.\n\n" ++
  "Ask ONE question at a time:\n" ++
  "- \"What type of financing are you looking for?\"\n" ++
  "- \"What\x27s the purpose of the loan?\"\n" ++
  "- \"What amount are you considering?\"\n\n" ++
  "Listen to their response and ask follow-up questions naturally.\n" ++
  "If they ask about " ++ companyName ++ ", give brief, helpful answers:\n" ++
  "- \"We offer business loans from $5K to $500K\"\n" ++
  "- \"Rates start at 8%\"\n" ++
  "- \"Approval in 24-48 hours\"\n\n" ++
  "Be conversational, not scripted. Speak quickly and efficiently.\n" ++
  "Respond immediately without delays."

/-- The scheduling-stage prompt of `_build_system_prompt` (final
branch). -/
def schedulingPrompt (agentName companyName contactPerson lead_name : String) : String :=
  "You are " ++ agentName ++ " from " ++ companyName ++ ". " ++ lead_name ++
  " is interested.\n\n" ++
  "Move to scheduling naturally:\n" ++
  "- \"When would be a good time for " ++ contactPerson ++ " to call you?\"\n" ++
  "- Don\x27t ask for email - use the email from their lead profile\n" ++
  "- Schedule the meeting and say " ++ contactPerson ++ " will send calendar invite\n\n" ++
  "Keep it simple and direct.\n" ++
  "Don\x27t over-explain.\n" ++
  "Speak quickly and efficiently.\n" ++
  "Respond immediately without delays."

/-- `_build_system_prompt`: branches on `conversation_length`. -/
def build_system_prompt (agentName companyName contactPerson lead_name : String)
    (conversation_length : Nat) : String :=
  if conversation_length == 0 then
    openingPrompt agentName companyName contactPerson lead_name
  else if conversation_length ≤ 2 then
    qualificationPrompt agentName companyName
  else
    schedulingPrompt agentName companyName contactPerson lead_name

/-- `_build_messages`: the system prompt, then the last
`conversation_memory_turns * 2` history entries mapped to
assistant/user roles, then the current context when non-empty.
Python's slice `l[-n:]` is the whole list when `n = 0`. -/
def build_messages (systemPrompt context : String) (history : List Msg)
    (agentName : String) (memTurns : Nat) : List (String × String) :=
  let n := memTurns * 2
  let window := if n == 0 then history else history.drop (history.length - n)
  [("system", systemPrompt)] ++
  window.map (fun m =>
    ((if m.speaker == agentName then "assistant" else "user"), m.content)) ++
  (if context ≠ "" then [("user", "Context: " ++ context)] else [])

/-- The fixed apology utterance returned by `generate_response` on any
exception. -/
def apologyText : String :=
  "I apologize, but I\x27m having trouble processing that right now. Could you please repeat?"

/-- The system prompt a `generate_response` call uses: built from the
length of the stored history of `call_id` at the moment of generation
(`conversation_length = len(conversation_history)`), before any turn
is appended. -/
def promptUsed (agentName companyName contactPerson : String) (lead : Lead)
    (mem : Mem) (call_id : String) : String :=
  build_system_prompt agentName companyName contactPerson (leadNameOf lead)
    (mem call_id).length

/-- The `openai.ChatCompletion.create` call.  The openai 0.x client
uses the *module-level* `openai.api_key` — initialized at import from
the `OPENAI_API_KEY` process environment variable, and overwritten by
`AILogic.__init__` only when its own `openai_api_key` attribute is
truthy (see `openaiModuleKey` below); `moduleKeySet` is the truthiness
of that module-level key.  The client raises when no key is set at
all; otherwise `gen` is the provider oracle (`none` = any raised
exception: timeout, provider error, absent result). -/
def openaiCall (moduleKeySet : Bool)
    (gen : List (String × String) → Option String)
    (messages : List (String × String)) : Option String :=
  if moduleKeySet then gen messages else none

/-- `generate_response`: builds the stage prompt and message window,
calls the provider, and on success strips the text, appends it to the
memory of `call_id` (when `call_id` is non-empty) and returns it; on
any exception returns `apologyText` with the memory untouched (the
`except` branch performs no append). -/
def generate_response (moduleKeySet : Bool)
    (gen : List (String × String) → Option String)
    (agentName companyName contactPerson : String) (memTurns : Nat)
    (lead : Lead) (context call_id : String) (now : Nat) (mem : Mem) :
    String × Mem :=
  let history := mem call_id
  let systemPrompt := promptUsed agentName companyName contactPerson lead mem call_id
  let messages := build_messages systemPrompt context history agentName memTurns
  match openaiCall moduleKeySet gen messages with
  | none => (apologyText, mem)
  | some raw =>
      let resp := pyStrip raw
      if call_id ≠ "" then
        (resp, fun k => if k = call_id then mem call_id ++ [⟨agentName, resp, now⟩] else mem k)
      else (resp, mem)

/-- `store_user_response`: appends a `'Caller'` turn when `call_id` is
truthy (non-empty). -/
def store_user_response (call_id user_response : String) (now : Nat) (mem : Mem) : Mem :=
  if call_id ≠ "" then
    fun k => if k = call_id then mem call_id ++ [⟨"Caller", user_response, now⟩] else mem k
  else mem

/-- `is_configured` of `AILogic`: truthiness of the stored API key. -/
def aiIsConfigured (openai_api_key : Option String) : Bool :=
  match openai_api_key with
  | none => false
  | some s => s ≠ ""

/-! ## Call table, database and webhook handlers (`web/routes.py`, `web/app.py`)

The dicts `call_history` and `active_calls` are modelled as
association lists in insertion order (as Python dicts iterate), the
SQLite `call_records` table as a list of rows keyed by the primary key
`call_id`, and the `called_leads` table as the list of its
`lead_id`s. -/

/-- A value of `call_history` / `active_calls`: the call-info dict.
`lead_id`, `call_sid` and `lead_info` are optional because the two
creation sites (`make_call` in `web/app.py` and `handle_call` in
`web/routes.py`) populate different keys. -/
structure CallInfo where
  call_id : String
  lead_id : Option String := none
  call_sid : Option String := none
  lead_info : Option Lead := none
  start_time : Nat
  status : String
  deriving Repr, DecidableEq

/-- A row of the `call_records` table (`utils/database.py`), the
columns the handlers read and write. -/
structure CallRecord where
  call_id : String
  lead_id : String
  lead_name : String
  phone_number : String
  call_start_time : Nat
  status : String
  conversation_data : String
  recording_url : String
  duration : Nat
  call_sid : String
  deriving Repr, DecidableEq

/-- Dict lookup `d.get(k)` on an association list. -/
def alGet (l : List (String × α)) (k : String) : Option α :=
  (l.find? (fun p => p.1 == k)).map (fun p => p.2)

/-- Dict assignment `d[k] = v`: replaces the entry in place, else
appends (Python dicts keep insertion order). -/
def alPut : List (String × α) → String → α → List (String × α)
  | [], k, v => [(k, v)]
  | (a, b) :: t, k, v => if a == k then (k, v) :: t else (a, b) :: alPut t k v

/-- Dict deletion `del d[k]`. -/
def alDel (l : List (String × α)) (k : String) : List (String × α) :=
  l.filter (fun p => p.1 != k)

/-- `SELECT … FROM call_records WHERE call_id = ?` (primary-key lookup). -/
def dbGet (db : List CallRecord) (cid : String) : Option CallRecord :=
  db.find? (fun r => r.call_id == cid)

/-- `INSERT OR REPLACE INTO call_records`: replaces the row with the
same primary key, else inserts. -/
def dbPut : List CallRecord → CallRecord → List CallRecord
  | [], r => [r]
  | q :: t, r => if q.call_id == r.call_id then r :: t else q :: dbPut t r

/-- `SELECT call_id FROM call_records WHERE call_sid = ?` (first row). -/
def dbFindBySid (db : List CallRecord) (sid : String) : Option CallRecord :=
  db.find? (fun r => r.call_sid == sid)

/-- `UPDATE call_records SET status = ?, recording_url = ? WHERE call_id = ?`. -/
def dbUpdateStatus (db : List CallRecord) (cid status recording_url : String) :
    List CallRecord :=
  db.map (fun r =>
    if r.call_id == cid then { r with status := status, recording_url := recording_url } else r)

/-- The shared mutable state: the two in-memory call tables and the
two database tables. -/
structure SysState where
  call_history : List (String × CallInfo)
  active_calls : List (String × CallInfo)
  db : List CallRecord
  called_leads : List String
  deriving Repr, DecidableEq

/-- The `call_result` dict handed to `save_call_record`. -/
structure CallResult where
  status : String
  call_sid : String
  conversation_data : String
  recording_url : String
  duration : Nat
  deriving Repr, DecidableEq

/-- `save_call_record` (`web/app.py`): builds a full row from the
call-info dict (`{}`, i.e. `none`, when the call is unknown — then
`start_time` defaults to `datetime.now()`, the `now` argument) and the
result dict, and INSERT-OR-REPLACEs it under `call_id`. -/
def save_call_record (cid : String) (info : Option CallInfo) (res : CallResult)
    (now : Nat) (db : List CallRecord) : List CallRecord :=
  let lead := (info.bind (fun i => i.lead_info)).getD {}
  dbPut db
    { call_id := cid
      lead_id := lead.id
      lead_name := leadNameOf lead
      phone_number := lead.phone
      call_start_time := (info.map (fun i => i.start_time)).getD now
      status := res.status
      conversation_data := res.conversation_data
      recording_url := res.recording_url
      duration := res.duration
      call_sid := res.call_sid }

/-- The `status_mapping` dict of `handle_call_status`, with
`dict.get(call_status, call_status)` fallback. -/
def statusMapping (s : String) : String :=
  if s == "initiated" then "initiated"
  else if s == "ringing" then "ringing"
  else if s == "answered" then "active"
  else if s == "completed" then "completed"
  else if s == "busy" then "busy"
  else if s == "failed" then "failed"
  else if s == "no-answer" then "no-answer"
  else if s == "canceled" then "canceled"
  else if s == "in-progress" then "active"
  else s

/-- The mapped statuses treated as call-ended in `handle_call_status`. -/
def terminalStatuses : List String :=
  ["completed", "busy", "failed", "no-answer", "canceled"]

/-- The three-step correlation of `handle_call_status`: the URL
`call_id` if present; else the first `call_history` entry whose
`call_sid` matches (only attempted when `call_sid` is non-empty); else
the first database row whose `call_sid` matches; `none` means the
handler answers 400. -/
def resolveCallId (urlCallId callSid : String) (st : SysState) : Option String :=
  let c1 := urlCallId
  let c2 :=
    if c1 == "" && callSid != "" then
      match st.call_history.find? (fun p => p.2.call_sid == some callSid) with
      | some p => p.1
      | none => c1
    else c1
  let c3 :=
    if c2 == "" then
      match dbFindBySid st.db callSid with
      | some r => r.call_id
      | none => c2
    else c2
  if c3 == "" then none else some c3

/-- A handler's HTTP result: a TwiML voice document, a JSON success
payload, or a JSON error with its status code. -/
inductive HandlerResp where
  | twiml (body : String)
  | jsonOk (payload : String)
  | jsonErr (code : Nat) (msg : String)
  deriving Repr, DecidableEq

/-- Whether a handler result is a TwiML voice response. -/
def HandlerResp.isTwimlResp : HandlerResp → Bool
  | .twiml _ => true
  | _ => false

/-- `extract recording_sid`:
`recording_url.split('/Recordings/')[-1].split('/')[0]`, attempted
only when a `recording_url` arrived without a `recording_sid`. -/
def extractRecordingSid (recordingUrl recordingSid : String) : String :=
  if recordingUrl != "" && recordingSid == "" then
    if pyIn "/Recordings/" recordingUrl then
      (((recordingUrl.splitOn "/Recordings/").getLastD "").splitOn "/").headD ""
    else recordingSid
  else recordingSid

/-- `handle_call_status` (`web/routes.py`): correlates the event to a
`call_id`, maps the Twilio status, overwrites the in-memory status
when the call is in `call_history` (deleting it from `active_calls` on
an ended status), then writes the full row via `save_call_record` and
issues the direct `UPDATE` of `status`/`recording_url`. -/
def handle_call_status (urlCallId callSid callStatus recordingUrl recordingSid : String)
    (now : Nat) (st : SysState) : HandlerResp × SysState :=
  match resolveCallId urlCallId callSid st with
  | none => (.jsonErr 400 "Call ID not found", st)
  | some cid =>
      let mapped := statusMapping callStatus
      let ch :=
        match alGet st.call_history cid with
        | some info => alPut st.call_history cid { info with status := mapped }
        | none => st.call_history
      let ac :=
        if (alGet st.call_history cid).isSome && terminalStatuses.contains mapped then
          alDel st.active_calls cid
        else st.active_calls
      let recSid := extractRecordingSid recordingUrl recordingSid
      let res : CallResult :=
        { status := mapped, call_sid := callSid, conversation_data := ""
          recording_url := recSid, duration := 0 }
      let db1 := save_call_record cid (alGet ch cid) res now st.db
      let db2 := dbUpdateStatus db1 cid mapped recSid
      (.jsonOk mapped,
       { call_history := ch, active_calls := ac, db := db2, called_leads := st.called_leads })

/-- The method names defined on class `AILogic`
(`core/ai_logic.py`).  In particular there is no `store_ai_response`. -/
def ailogicMethods : List String :=
  ["__init__", "generate_response", "_build_system_prompt", "_build_messages",
   "store_user_response", "analyze_conversation_outcome", "extract_meeting_details",
   "get_conversation_history", "clear_conversation", "is_configured", "get_config_info"]

/-- The method names defined on class `GHLIntegration`
(`integrations/ghl_integration.py`).  In particular there is no
`mark_lead_as_called`. -/
def ghlMethods : List String :=
  ["__init__", "get_leads", "get_dummy_leads", "filter_available_leads",
   "update_lead_status", "get_lead_by_id", "is_configured", "get_config_info"]

/-- The TwiML document both voice handlers would return. -/
def twimlFor (aiResponse callId : String) : String :=
  "<?xml version=\"1.0\" encoding=\"UTF-8\"?>\n<Response>\n    <Say voice=\"alice\">" ++
  aiResponse ++ "</Say>\n    <Record action=\"/handle_response?call_id=" ++ callId ++
  "\"\n            maxLength=\"30\"\n            playBeep=\"true\"\n            trim=\"trim-silence\" />\n</Response>"

/-- `handle_call` (`web/routes.py`): creates a `call_history` entry if
absent, generates the AI response, then invokes
`ai_logic.store_ai_response` — a method `AILogic` does not define
(`ailogicMethods`), so an `AttributeError` is raised and the `except`
branch answers a JSON error with status 500; the TwiML branch is
unreachable. -/
def handle_call (callId leadId : String) (moduleKeySet : Bool)
    (gen : List (String × String) → Option String)
    (agentName companyName contactPerson : String) (memTurns : Nat)
    (now : Nat) (st : SysState) (mem : Mem) : HandlerResp × SysState × Mem :=
  if callId == "" then (.jsonErr 400 "Call ID required", st, mem)
  else
    let ch :=
      if (alGet st.call_history callId).isSome then st.call_history
      else alPut st.call_history callId
        { call_id := callId, lead_id := some leadId, start_time := now, status := "initiated" }
    let leadInfo := ((alGet ch callId).bind (fun i => i.lead_info)).getD {}
    let gr := generate_response moduleKeySet gen agentName companyName contactPerson
      memTurns leadInfo "" callId now mem
    let st1 : SysState := { st with call_history := ch }
    if ailogicMethods.contains "store_ai_response" then
      (.twiml (twimlFor gr.1 callId), st1, gr.2)
    else
      (.jsonErr 500 "AttributeError", st1, gr.2)

/-- `handle_call_response` (`web/routes.py`, route `/handle_response`):
stores the caller turn (empty speech becomes the placeholder text),
generates the AI response, then invokes the undefined
`ai_logic.store_ai_response`, so it answers a JSON error with status
500; the TwiML branch is unreachable. -/
def handle_call_response (callId speechResult : String) (moduleKeySet : Bool)
    (gen : List (String × String) → Option String)
    (agentName companyName contactPerson : String) (memTurns : Nat)
    (now : Nat) (st : SysState) (mem : Mem) : HandlerResp × SysState × Mem :=
  if callId == "" then (.jsonErr 400 "Call ID required", st, mem)
  else
    let userResp := if speechResult == "" then "User spoke but no text was captured" else speechResult
    let mem1 := store_user_response callId userResp now mem
    let leadInfo := ((alGet st.call_history callId).bind (fun i => i.lead_info)).getD {}
    let gr := generate_response moduleKeySet gen agentName companyName contactPerson
      memTurns leadInfo userResp callId now mem1
    if ailogicMethods.contains "store_ai_response" then
      (.twiml (twimlFor gr.1 callId), st, gr.2)
    else
      (.jsonErr 500 "AttributeError", st, gr.2)

/-- `make_call` (`web/app.py`): dials via Twilio (`twilioResult` is
the oracle: `some sid` on success, `none` on failure), records the
call in both in-memory tables and the database, then invokes
`ghl_integration.mark_lead_as_called` — a method `GHLIntegration` does
not define (`ghlMethods`), so an `AttributeError` is raised and the
`except` branch returns `False` with the mutations so far kept and the
`called_leads` dedup table never written.  The then-branch (modelled
from the spec, §4.1: write the lead to the dedup set at initiation) is
unreachable. -/
def make_call (lead : Lead) (twilioResult : Option String) (now : Nat)
    (st : SysState) : Bool × SysState :=
  let callId := "call_" ++ toString now ++ "_" ++ lead.id
  match twilioResult with
  | none => (false, st)
  | some sid =>
      let info : CallInfo :=
        { call_id := callId, call_sid := some sid, lead_info := some lead
          start_time := now, status := "initiated" }
      let ch := alPut st.call_history callId info
      let ac := alPut st.active_calls callId info
      let res : CallResult :=
        { status := "initiated", call_sid := sid, conversation_data := ""
          recording_url := "", duration := 0 }
      let db := save_call_record callId (some info) res now st.db
      if ghlMethods.contains "mark_lead_as_called" then
        (true, { call_history := ch, active_calls := ac, db := db
                 called_leads := st.called_leads ++ [lead.id] })
      else
        (false, { call_history := ch, active_calls := ac, db := db
                  called_leads := st.called_leads })

/-- `filter_available_leads` (`integrations/ghl_integration.py`):
keeps the leads whose `id` is not among the already-called ids. -/
def filter_available_leads (leads : List Lead) (called_lead_ids : List String) : List Lead :=
  leads.filter (fun l => !(called_lead_ids.contains l.id))

/-- The lead a `monitor` tick (`web/app.py`) selects:
`available_leads[0]` after excluding `called_leads`, if any remain. -/
def monitorSelectedLead (leads : List Lead) (st : SysState) : Option Lead :=
  (filter_available_leads leads st.called_leads).head?

/-! ## Configuration loading and component wiring (`utils/config.py`, `web/app.py`)

The repository ships no `config.json`, so `load_config` starts from an
empty dict and the result is exactly the environment-variable merge of
`_merge_with_env_vars`.  Values parsed with `int(…)`/`float(…)` are
kept as their raw environment strings: a parse failure would only
*reject* a configuration, so this models a superset of the accepted
configurations, which is sound for the universally-quantified claims
about every accepted configuration (no claim observes the numeric
values). -/

/-- A JSON-ish configuration value. -/
inductive JVal where
  | s (v : String)
  | b (v : Bool)
  | list (v : List JVal)
  | dict (entries : List (String × JVal))

/-- Python `d.get(k)` on a configuration value (only ever called on
dicts in the source). -/
def JVal.get (v : JVal) (k : String) : Option JVal :=
  match v with
  | .dict es => alGet es k
  | _ => none

/-- Python `d.get(k, {})`. -/
def JVal.getDict (v : JVal) (k : String) : JVal :=
  (v.get k).getD (.dict [])

/-- Python truthiness of a configuration value. -/
def jTruthy : JVal → Bool
  | .s v => v != ""
  | .b v => v
  | .list v => !v.isEmpty
  | .dict es => !es.isEmpty

/-- Truthiness of `d.get(k)` (missing key is `None`, falsy). -/
def optTruthy (o : Option JVal) : Bool :=
  (o.map jTruthy).getD false

/-- The process environment, `os.getenv`. -/
def Env : Type := String → Option String

/-- `os.getenv(name, default)`. -/
def envOr (env : Env) (name default : String) : String :=
  (env name).getD default

/-- `_merge_with_env_vars` applied to the empty dict (no
`config.json`): the configuration `load_config` builds, section by
section, key by key, with the defaults of the source. -/
def mergedConfig (env : Env) : JVal :=
  .dict [
    ("ghl", .dict [
      ("api_key", .s (envOr env "GHL_API_KEY" "")),
      ("location_id", .s (envOr env "GHL_LOCATION_ID" "")),
      ("check_interval_minutes", .s (envOr env "LEAD_CHECK_INTERVAL_MINUTES" "10")),
      ("auto_call_enabled", .b (pyLower (envOr env "AUTO_CALL_ENABLED" "True") == "true")),
      ("leads_hours_limit", .s (envOr env "LEADS_HOURS_LIMIT" "24"))]),
    ("openai", .dict [
      ("api_key", .s (envOr env "OPENAI_API_KEY" ""))]),
    ("twilio", .dict [
      ("account_sid", .s (envOr env "TWILIO_ACCOUNT_SID" "")),
      ("auth_token", .s (envOr env "TWILIO_AUTH_TOKEN" "")),
      ("phone_number", .s (envOr env "TWILIO_PHONE_NUMBER" ""))]),
    ("webhook_base_url", .s (envOr env "WEBHOOK_BASE_URL" "http://localhost:5000")),
    ("call_settings", .dict [
      ("max_call_duration", .s (envOr env "MAX_CALL_DURATION" "300")),
      ("retry_attempts", .s (envOr env "RETRY_ATTEMPTS" "2")),
      ("call_delay_minutes", .s (envOr env "CALL_DELAY_MINUTES" "5")),
      ("lead_check_interval_minutes", .s (envOr env "LEAD_CHECK_INTERVAL_MINUTES" "10")),
      ("business_hours", .dict [
        ("start", .s (envOr env "BUSINESS_HOURS_START" "00:00")),
        ("end", .s (envOr env "BUSINESS_HOURS_END" "23:59")),
        ("timezone", .s (envOr env "BUSINESS_HOURS_TIMEZONE" "America/New_York"))]),
      ("voice_settings", .dict [
        ("voice", .s (envOr env "VOICE_TYPE" "en-US-Neural2-F")),
        ("speech_rate", .s (envOr env "SPEECH_RATE" "1.0")),
        ("pitch", .s (envOr env "VOICE_PITCH" "1.0")),
        ("volume", .s (envOr env "VOICE_VOLUME" "1.0")),
        ("gender", .s (envOr env "VOICE_GENDER" "female"))]),
      ("conversation_settings", .dict [
        ("speech_timeout", .s (envOr env "SPEECH_TIMEOUT" "auto")),
        ("gather_timeout", .s (envOr env "GATHER_TIMEOUT" "5")),
        ("language", .s (envOr env "CONVERSATION_LANGUAGE" "en-US")),
        ("speech_model", .s (envOr env "SPEECH_MODEL" "phone_call")),
        ("interruption_threshold", .s (envOr env "INTERRUPTION_THRESHOLD" "0.5")),
        ("speech_timeout_seconds", .s (envOr env "SPEECH_TIMEOUT_SECONDS" "1.5"))])]),
    ("ai_settings", .dict [
      ("model", .s (envOr env "AI_MODEL" "gpt-4")),
      ("max_tokens", .s (envOr env "AI_MAX_TOKENS" "150")),
      ("temperature", .s (envOr env "AI_TEMPERATURE" "0.7")),
      ("conversation_memory_turns", .s (envOr env "AI_CONVERSATION_MEMORY_TURNS" "5")),
      ("personality", .s (envOr env "AI_PERSONALITY" "professional_friendly")),
      ("agent_name", .s (envOr env "AI_AGENT_NAME" "Maayaa")),
      ("company_name", .s (envOr env "AI_COMPANY_NAME" "LoanCater")),
      ("contact_person", .s (envOr env "AI_CONTACT_PERSON" "Ryan")),
      ("contact_email", .s (envOr env "AI_CONTACT_EMAIL" "ryan@loancater.com"))])]

/-- Value at a dotted config path, as `_validate_required_keys` walks it. -/
def configValueAt (cfg : JVal) (path : List String) : Option JVal :=
  match path with
  | [] => some cfg
  | k :: rest =>
      match cfg.get k with
      | some v => configValueAt v rest
      | none => none

/-- `_validate_required_keys`: the five required dotted paths must all
hold truthy values, else `load_config` raises. -/
def validateRequiredKeys (cfg : JVal) : Bool :=
  optTruthy (configValueAt cfg ["ghl", "api_key"]) &&
  optTruthy (configValueAt cfg ["ghl", "location_id"]) &&
  optTruthy (configValueAt cfg ["openai", "api_key"]) &&
  optTruthy (configValueAt cfg ["twilio", "account_sid"]) &&
  optTruthy (configValueAt cfg ["twilio", "auth_token"])

/-- `load_config`: the merged configuration when validation passes,
`none` when it raises. -/
def load_config (env : Env) : Option JVal :=
  let cfg := mergedConfig env
  if validateRequiredKeys cfg then some cfg else none

/-- `AILogic.__init__` applied, as `create_app` does, to
`config['ai_settings']`: the stored API key is
`section.get('openai', {}).get('api_key')`. -/
def aiInitApiKey (sec : JVal) : Option JVal :=
  (sec.getDict "openai").get "api_key"

/-- `AILogic.is_configured()`: `bool(self.openai_api_key)`. -/
def ai_is_configured (sec : JVal) : Bool :=
  optTruthy (aiInitApiKey sec)

/-- The module-level `openai.api_key` after `AILogic.__init__` runs.
The openai 0.x client initializes it from the `OPENAI_API_KEY`
process environment variable when `import openai` executes;
`__init__` then overwrites it (`openai.api_key = self.openai_api_key`)
only when its own attribute is truthy.  `importKey` is the variable's
value in the process environment at import time (`""` when absent,
e.g. when the key arrives only via a `.env` file loaded after the
import). -/
def openaiModuleKey (importKey : String) (sec : JVal) : String :=
  match aiInitApiKey sec with
  | some (.s v) => if v == "" then importKey else v
  | _ => importKey

/-- `GHLIntegration.__init__` applied, as `create_app` does, to
`config['ghl']`: credentials come from `section.get('ghl', {})`. -/
def ghlInitApiKey (sec : JVal) : Option JVal :=
  (sec.getDict "ghl").get "api_key"

/-- `GHLIntegration.__init__`: `self.location_id`. -/
def ghlInitLocationId (sec : JVal) : Option JVal :=
  (sec.getDict "ghl").get "location_id"

/-- `GHLIntegration.is_configured()`: `bool(self.api_key and self.location_id)`. -/
def ghl_is_configured (sec : JVal) : Bool :=
  optTruthy (ghlInitApiKey sec) && optTruthy (ghlInitLocationId sec)

/-- `TwilioIntegration.__init__` applied, as `create_app` does, to
`config['twilio']`: credentials come from `section.get('twilio', {})`. -/
def twilioInitField (sec : JVal) (field : String) : Option JVal :=
  (sec.getDict "twilio").get field

/-- `TwilioIntegration.is_configured()`:
`bool(self.account_sid and self.auth_token and self.phone_number)`. -/
def twilio_is_configured (sec : JVal) : Bool :=
  optTruthy (twilioInitField sec "account_sid") &&
  optTruthy (twilioInitField sec "auth_token") &&
  optTruthy (twilioInitField sec "phone_number")

/-- `GHLIntegration.get_dummy_leads()`:
`self.config.get('dummy_leads', [])`. -/
def get_dummy_leads (sec : JVal) : JVal :=
  (sec.get "dummy_leads").getD (.list [])

/-- `GHLIntegration.get_leads()`: the unconfigured branch (and every
error branch) returns the dummy leads; the configured branch returns
the fetched list (the API call, recency filtering and field mapping
are absorbed into the oracle `apiResult`, `none` modelling a non-200
response or an exception). -/
def ghl_get_leads (configured : Bool) (apiResult : Option JVal) (sec : JVal) : JVal :=
  if !configured then get_dummy_leads sec
  else
    match apiResult with
    | some leads => leads
    | none => get_dummy_leads sec

example : pyLower "Tomorrow at 3 PM Would Work" = "tomorrow at 3 pm would work" := by decide

example : pyIn "pm" (pyLower "I need equipment financing") = true := by decide

example :
    analyze_conversation_outcome defaultAgentName
      [⟨"Caller", "I need equipment financing", 0⟩,
       ⟨"Caller", "around $50,000 for kitchen equipment", 1⟩,
       ⟨"Caller", "tomorrow at 3 PM would work", 2⟩,
       ⟨"Maayaa", "I\x27ve scheduled your meeting with Ryan for 3 p.m. tomorrow", 3⟩]
      = "positive_meeting" := by decide

example :
    extract_meeting_details defaultAgentName
      [⟨"Caller", "I need equipment financing", 0⟩,
       ⟨"Caller", "around $50,000 for kitchen equipment", 1⟩,
       ⟨"Caller", "tomorrow at 3 PM would work", 2⟩,
       ⟨"Maayaa", "I\x27ve scheduled your meeting with Ryan for 3 p.m. tomorrow", 3⟩]
      = some "3:00 PM MST" := by decide

/-! ## Lookup lemmas for the dict and table models -/

theorem alGet_alPut_self (l : List (String × α)) (k : String) (v : α) :
    alGet (alPut l k v) k = some v := by
  induction l with
  | nil => simp [alPut, alGet]
  | cons p t ih =>
      obtain ⟨a, b⟩ := p
      by_cases h : a = k
      · subst h
        simp [alPut, alGet]
      · have hbeq : (a == k) = false := beq_eq_false_iff_ne.mpr h
        simpa [alPut, alGet, hbeq, List.find?] using ih

theorem alGet_alPut_ne (l : List (String × α)) (k k' : String) (v : α) (h : k' ≠ k) :
    alGet (alPut l k v) k' = alGet l k' := by
  induction l with
  | nil =>
      have hk : (k == k') = false := beq_eq_false_iff_ne.mpr (Ne.symm h)
      simp [alPut, alGet, hk, List.find?]
  | cons p t ih =>
      obtain ⟨a, b⟩ := p
      by_cases ha : a = k
      · subst ha
        have hak : (a == k') = false := beq_eq_false_iff_ne.mpr (Ne.symm h)
        simp [alPut, alGet, hak, List.find?]
      · have hbeq : (a == k) = false := beq_eq_false_iff_ne.mpr ha
        by_cases ha' : a = k'
        · subst ha'
          simp [alPut, alGet, hbeq, List.find?]
        · have ha'f : (a == k') = false := beq_eq_false_iff_ne.mpr ha'
          simpa [alPut, alGet, hbeq, ha'f, List.find?] using ih

theorem alGet_alDel_ne (l : List (String × α)) (k k' : String) (h : k' ≠ k) :
    alGet (alDel l k) k' = alGet l k' := by
  induction l with
  | nil => simp [alDel, alGet]
  | cons p t ih =>
      obtain ⟨a, b⟩ := p
      by_cases ha : a = k
      · subst ha
        have hak : (a == k') = false := beq_eq_false_iff_ne.mpr (Ne.symm h)
        simpa [alDel, alGet, hak, List.filter, List.find?] using ih
      · by_cases ha' : a = k'
        · subst ha'
          have hne : (a != k) = true := bne_iff_ne.mpr ha
          simp [alDel, alGet, hne, List.filter, List.find?]
        · have ha'f : (a == k') = false := beq_eq_false_iff_ne.mpr ha'
          have hne : (a != k) = true := bne_iff_ne.mpr ha
          simpa [alDel, alGet, hne, ha'f, List.filter, List.find?] using ih

theorem dbGet_dbPut_self (db : List CallRecord) (r : CallRecord) :
    dbGet (dbPut db r) r.call_id = some r := by
  induction db with
  | nil => simp [dbPut, dbGet]
  | cons q t ih =>
      by_cases h : q.call_id = r.call_id
      · simp [dbPut, dbGet, h]
      · have hbeq : (q.call_id == r.call_id) = false := beq_eq_false_iff_ne.mpr h
        simpa [dbPut, dbGet, hbeq, List.find?] using ih

theorem dbGet_dbPut_ne (db : List CallRecord) (r : CallRecord) (c : String)
    (h : c ≠ r.call_id) : dbGet (dbPut db r) c = dbGet db c := by
  induction db with
  | nil =>
      have hk : (r.call_id == c) = false := beq_eq_false_iff_ne.mpr (Ne.symm h)
      simp [dbPut, dbGet, hk, List.find?]
  | cons q t ih =>
      by_cases hq : q.call_id = r.call_id
      · have hrc : (r.call_id == c) = false := beq_eq_false_iff_ne.mpr (Ne.symm h)
        have hqc : (q.call_id == c) = false := by rw [hq]; exact hrc
        simp [dbPut, dbGet, hq, hrc, hqc, List.find?]
      · have hbeq : (q.call_id == r.call_id) = false := beq_eq_false_iff_ne.mpr hq
        by_cases hc : q.call_id = c
        · simp [dbPut, dbGet, hbeq, hc, h, List.find?]
        · have hqc : (q.call_id == c) = false := beq_eq_false_iff_ne.mpr hc
          simpa [dbPut, dbGet, hbeq, hqc, List.find?] using ih

theorem dbGet_dbUpdateStatus_self (db : List CallRecord) (cid s u : String) :
    dbGet (dbUpdateStatus db cid s u) cid
      = (dbGet db cid).map (fun r => { r with status := s, recording_url := u }) := by
  induction db with
  | nil => simp [dbUpdateStatus, dbGet]
  | cons q t ih =>
      by_cases h : q.call_id = cid
      · simp [dbUpdateStatus, dbGet, h, List.find?]
      · have hbeq : (q.call_id == cid) = false := beq_eq_false_iff_ne.mpr h
        simpa [dbUpdateStatus, dbGet, hbeq, List.find?] using ih

theorem dbGet_dbUpdateStatus_ne (db : List CallRecord) (cid s u c : String)
    (h : c ≠ cid) : dbGet (dbUpdateStatus db cid s u) c = dbGet db c := by
  induction db with
  | nil => simp [dbUpdateStatus, dbGet]
  | cons q t ih =>
      by_cases hq : q.call_id = cid
      · have hcc : (cid == c) = false := beq_eq_false_iff_ne.mpr (Ne.symm h)
        simpa [dbUpdateStatus, dbGet, hq, hcc, List.find?] using ih
      · have hbeq : (q.call_id == cid) = false := beq_eq_false_iff_ne.mpr hq
        by_cases hc : q.call_id = c
        · simp [dbUpdateStatus, dbGet, hbeq, hc, h, List.find?]
        · have hqc : (q.call_id == c) = false := beq_eq_false_iff_ne.mpr hc
          simpa [dbUpdateStatus, dbGet, hbeq, hqc, List.find?] using ih

/-! ## The outcome classifier claims -/

/-- The `positive_response` signal as the spec states it: some caller
turn contains a positive keyword, case-insensitively. -/
def PositiveResponseP (conv : List Msg) : Prop :=
  ∃ m ∈ conv, m.speaker = "Caller" ∧ ∃ k ∈ positive_keywords, pyIn k (pyLower m.content) = true

/-- The `negative_response` signal as the spec states it. -/
def NegativeResponseP (conv : List Msg) : Prop :=
  ∃ m ∈ conv, m.speaker = "Caller" ∧ ∃ k ∈ negative_keywords, pyIn k (pyLower m.content) = true

/-- The `meeting_scheduled` signal as the spec states it: some agent
turn contains a meeting keyword, case-insensitively. -/
def MeetingScheduledP (agentName : String) (conv : List Msg) : Prop :=
  ∃ m ∈ conv, m.speaker = agentName ∧ ∃ k ∈ meeting_keywords, pyIn k (pyLower m.content) = true

theorem positiveResponse_iff (conv : List Msg) :
    PositiveResponseP conv ↔ positiveResponse conv = true := by
  unfold PositiveResponseP positiveResponse userResponses
  simp [List.any_eq_true, List.mem_map, List.mem_filter, beq_iff_eq]
  tauto

theorem negativeResponse_iff (conv : List Msg) :
    NegativeResponseP conv ↔ negativeResponse conv = true := by
  unfold NegativeResponseP negativeResponse userResponses
  simp [List.any_eq_true, List.mem_map, List.mem_filter, beq_iff_eq]
  tauto

theorem meetingScheduled_iff (a : String) (conv : List Msg) :
    MeetingScheduledP a conv ↔ meetingScheduled a conv = true := by
  unfold MeetingScheduledP meetingScheduled
  simp [List.any_eq_true, beq_iff_eq]

/-- C6: the outcome classifier evaluates exactly the three
case-insensitive substring signals — `positive_response` and
`negative_response` over caller turns, `meeting_scheduled` over agent
turns — and returns `positive_meeting` precisely when the positive and
meeting signals both hold, else `positive` precisely when the positive
signal holds, else `negative` precisely when the negative signal
holds, else `neutral`. -/
theorem outcome_classifier_precedence (a : String) (conv : List Msg) :
    (analyze_conversation_outcome a conv = "positive_meeting" ↔
      PositiveResponseP conv ∧ MeetingScheduledP a conv) ∧
    (analyze_conversation_outcome a conv = "positive" ↔
      PositiveResponseP conv ∧ ¬ MeetingScheduledP a conv) ∧
    (analyze_conversation_outcome a conv = "negative" ↔
      ¬ PositiveResponseP conv ∧ NegativeResponseP conv) ∧
    (analyze_conversation_outcome a conv = "neutral" ↔
      ¬ PositiveResponseP conv ∧ ¬ NegativeResponseP conv) := by
  cases hpb : positiveResponse conv <;> cases hnb : negativeResponse conv <;>
    cases hmb : meetingScheduled a conv <;>
      simp [analyze_conversation_outcome, hpb, hnb, hmb,
        positiveResponse_iff, negativeResponse_iff, meetingScheduled_iff]

/-- C10: positive signals are checked before negative ones and
substring matching makes `"not interested"` contain `"interested"`, so
a conversation with a caller turn containing `"interested"` is never
classified `negative`: it is `positive_meeting` exactly when the
meeting signal holds on the agent turns, else `positive`. -/
theorem interested_substring_never_negative (a : String) (conv : List Msg) (m : Msg)
    (hm : m ∈ conv) (hs : m.speaker = "Caller")
    (hin : pyIn "interested" (pyLower m.content) = true) :
    analyze_conversation_outcome a conv ≠ "negative" ∧
    analyze_conversation_outcome a conv =
      (if meetingScheduled a conv then "positive_meeting" else "positive") := by
  have hp : positiveResponse conv = true :=
    (positiveResponse_iff conv).mp ⟨m, hm, hs, "interested", by simp [positive_keywords], hin⟩
  cases hmb : meetingScheduled a conv <;>
    simp [analyze_conversation_outcome, hp, hmb]

theorem interested_substring_never_negative_witness :
    analyze_conversation_outcome defaultAgentName [⟨"Caller", "not interested", 0⟩] ≠ "negative" ∧
    analyze_conversation_outcome defaultAgentName [⟨"Caller", "not interested", 0⟩] =
      (if meetingScheduled defaultAgentName [⟨"Caller", "not interested", 0⟩]
       then "positive_meeting" else "positive") :=
  interested_substring_never_negative defaultAgentName
    [⟨"Caller", "not interested", 0⟩] ⟨"Caller", "not interested", 0⟩
    (by simp) rfl (by decide)

/-- The §8 scenario conversation of the spec. -/
def scenario8 : List Msg :=
  [⟨"Caller", "I need equipment financing", 0⟩,
   ⟨"Caller", "around $50,000 for kitchen equipment", 1⟩,
   ⟨"Caller", "tomorrow at 3 PM would work", 2⟩,
   ⟨"Maayaa", "I\x27ve scheduled your meeting with Ryan for 3 p.m. tomorrow", 3⟩]

/-- C2 counterexample: on the §8 scenario `extract_meeting_details`
returns the canonical `'3:00 PM MST'`, not the literal caller phrase
`"tomorrow at 3 PM would work"`: caller-turn extraction does not take
precedence. -/
theorem meeting_time_caller_precedence_counterexample :
    extract_meeting_details defaultAgentName scenario8 = some "3:00 PM MST" ∧
    extract_meeting_details defaultAgentName scenario8 ≠ some "tomorrow at 3 PM would work" := by
  decide

/-- C2 amended: the classifier does return `positive_meeting` on the
§8 scenario, but the agent-turn pass overrides the caller-turn result:
whenever the first matching agent turn contains `'3 p.m.'` or
`'3 pm'`, `extract_meeting_details` returns `'3:00 PM MST'` regardless
of the caller turns — in particular on the §8 scenario. -/
theorem meeting_time_agent_override :
    (analyze_conversation_outcome defaultAgentName scenario8 = "positive_meeting" ∧
     extract_meeting_details defaultAgentName scenario8 = some "3:00 PM MST") ∧
    ∀ (a : String) (conv : List Msg) (m : Msg),
      agentMeetingScan a conv = some m →
      (pyIn "3 p.m." (pyLower m.content) || pyIn "3 pm" (pyLower m.content)) = true →
      extract_meeting_details a conv = some "3:00 PM MST" := by
  refine ⟨by decide, ?_⟩
  intro a conv m hscan h3
  unfold extract_meeting_details
  rw [hscan]
  simp [h3]

theorem meeting_time_agent_override_witness :
    extract_meeting_details defaultAgentName scenario8 = some "3:00 PM MST" :=
  meeting_time_agent_override.2 defaultAgentName scenario8
    ⟨"Maayaa", "I\x27ve scheduled your meeting with Ryan for 3 p.m. tomorrow", 3⟩
    (by decide) (by decide)

/-! ## The dialogue engine claims -/

/-- The empty conversation store. -/
def memEmpty : Mem := fun _ => []

/-- A lead dict with no fields set. -/
def leadEmpty : Lead := {}

/-- C3 counterexample: when the provider call fails,
`generate_response` returns the apology but appends nothing — the
conversation of the session keeps its length instead of growing by
one. -/
theorem generation_failure_append_counterexample :
    (generate_response true (fun _ => none) "Maayaa" "LoanCater" "Ryan" 5
        leadEmpty "" "c1" 0 memEmpty).1 = apologyText ∧
    ((generate_response true (fun _ => none) "Maayaa" "LoanCater" "Ryan" 5
        leadEmpty "" "c1" 0 memEmpty).2 "c1").length = (memEmpty "c1").length ∧
    ¬ ((generate_response true (fun _ => none) "Maayaa" "LoanCater" "Ryan" 5
        leadEmpty "" "c1" 0 memEmpty).2 "c1").length = (memEmpty "c1").length + 1 := by
  refine ⟨rfl, rfl, by decide⟩

/-- C3 amended: on any provider failure `generate_response` returns
the fixed apology and leaves the conversation memory untouched — the
`except` branch performs no append, so the turn history length is
unchanged (not incremented). -/
theorem generation_failure_returns_apology_without_append
    (apiC : Bool) (gen : List (String × String) → Option String)
    (agentName companyName contactPerson : String) (memTurns : Nat)
    (lead : Lead) (context call_id : String) (now : Nat) (mem : Mem)
    (hfail : openaiCall apiC gen
      (build_messages (promptUsed agentName companyName contactPerson lead mem call_id)
        context (mem call_id) agentName memTurns) = none) :
    generate_response apiC gen agentName companyName contactPerson memTurns
      lead context call_id now mem = (apologyText, mem) := by
  unfold generate_response
  simp [hfail]

theorem generation_failure_returns_apology_without_append_witness :
    generate_response true (fun _ => none) "Maayaa" "LoanCater" "Ryan" 5
      leadEmpty "" "c1" 0 memEmpty = (apologyText, memEmpty) :=
  generation_failure_returns_apology_without_append true (fun _ => none)
    "Maayaa" "LoanCater" "Ryan" 5 leadEmpty "" "c1" 0 memEmpty rfl

/-- C5: the stage prompt a generation uses is a pure function of the
stored turn count at the moment of generation: 0 turns select the
opening prompt, exactly 1 or 2 turns the qualification prompt, and
more than 2 turns the scheduling prompt. -/
theorem stage_selection_by_turn_count (agentName companyName contactPerson : String)
    (lead : Lead) (mem : Mem) (call_id : String) :
    ((mem call_id).length = 0 →
      promptUsed agentName companyName contactPerson lead mem call_id =
        openingPrompt agentName companyName contactPerson (leadNameOf lead)) ∧
    (((mem call_id).length = 1 ∨ (mem call_id).length = 2) →
      promptUsed agentName companyName contactPerson lead mem call_id =
        qualificationPrompt agentName companyName) ∧
    (2 < (mem call_id).length →
      promptUsed agentName companyName contactPerson lead mem call_id =
        schedulingPrompt agentName companyName contactPerson (leadNameOf lead)) := by
  unfold promptUsed build_system_prompt
  refine ⟨fun h => ?_, fun h => ?_, fun h => ?_⟩
  · simp [h]
  · rcases h with h | h <;> simp [h]
  · have h0 : ((mem call_id).length == 0) = false := beq_eq_false_iff_ne.mpr (by omega)
    have h2 : ¬ (mem call_id).length ≤ 2 := by omega
    simp [h0, h2]

/-- A one-turn conversation store. -/
def memOne : Mem := fun _ => [⟨"Caller", "hi", 0⟩]

/-- A three-turn conversation store. -/
def memThree : Mem :=
  fun _ => [⟨"Caller", "hi", 0⟩, ⟨"Maayaa", "hello", 1⟩, ⟨"Caller", "yes", 2⟩]

theorem stage_selection_by_turn_count_witness :
    promptUsed "Maayaa" "LoanCater" "Ryan" leadEmpty memEmpty "c" =
      openingPrompt "Maayaa" "LoanCater" "Ryan" (leadNameOf leadEmpty) ∧
    promptUsed "Maayaa" "LoanCater" "Ryan" leadEmpty memOne "c" =
      qualificationPrompt "Maayaa" "LoanCater" ∧
    promptUsed "Maayaa" "LoanCater" "Ryan" leadEmpty memThree "c" =
      schedulingPrompt "Maayaa" "LoanCater" "Ryan" (leadNameOf leadEmpty) :=
  ⟨(stage_selection_by_turn_count "Maayaa" "LoanCater" "Ryan" leadEmpty memEmpty "c").1 rfl,
   (stage_selection_by_turn_count "Maayaa" "LoanCater" "Ryan" leadEmpty memOne "c").2.1 (Or.inl rfl),
   (stage_selection_by_turn_count "Maayaa" "LoanCater" "Ryan" leadEmpty memThree "c").2.2 (by decide)⟩

/-! ## The call-status handler claims -/

/-- `dbGet_dbPut_self` with the key given explicitly. -/
theorem dbGet_dbPut_self' (db : List CallRecord) (r : CallRecord) (c : String)
    (h : r.call_id = c) : dbGet (dbPut db r) c = some r :=
  h ▸ dbGet_dbPut_self db r

/-- A lead on file for the status-handler scenarios. -/
def leadA : Lead := { id := "L1", firstName := "Ada", lastName := "Lee", phone := "5551234" }

/-- A second lead for the isolation scenario. -/
def leadB : Lead := { id := "L2", firstName := "Bo", lastName := "Kim", phone := "5555678" }

/-- Session `c1`, already in the terminal status `completed`. -/
def infoC1 : CallInfo :=
  { call_id := "c1", call_sid := some "CA1", lead_info := some leadA
    start_time := 0, status := "completed" }

/-- Session `c2`, still active. -/
def infoC2 : CallInfo :=
  { call_id := "c2", call_sid := some "CA2", lead_info := some leadB
    start_time := 1, status := "active" }

/-- Database row of session `c1` with its terminal status. -/
def recC1 : CallRecord :=
  { call_id := "c1", lead_id := "L1", lead_name := "Ada Lee", phone_number := "5551234"
    call_start_time := 0, status := "completed", conversation_data := ""
    recording_url := "", duration := 0, call_sid := "CA1" }

/-- Database row of session `c2`. -/
def recC2 : CallRecord :=
  { call_id := "c2", lead_id := "L2", lead_name := "Bo Kim", phone_number := "5555678"
    call_start_time := 1, status := "active", conversation_data := ""
    recording_url := "", duration := 0, call_sid := "CA2" }

/-- A state whose only session is already terminal. -/
def stTerminal : SysState :=
  { call_history := [("c1", infoC1)], active_calls := [], db := [recC1], called_leads := [] }

/-- A state with the terminal session `c1` and the active session `c2`. -/
def stTwo : SysState :=
  { call_history := [("c1", infoC1), ("c2", infoC2)], active_calls := [("c2", infoC2)]
    db := [recC1, recC2], called_leads := [] }

/-- C1 counterexample: session `c1` is recorded `completed`; a further
terminal event `busy` is not a no-op — the stored status becomes
`busy` in the in-memory call table and in the database instead of
remaining the first-recorded terminal status. -/
theorem terminal_status_no_op_counterexample :
    (alGet (handle_call_status "c1" "CA1" "busy" "" "" 5 stTerminal).2.call_history "c1").map
        CallInfo.status = some "busy" ∧
    (dbGet (handle_call_status "c1" "CA1" "busy" "" "" 5 stTerminal).2.db "c1").map
        CallRecord.status = some "busy" ∧
    ("busy" : String) ≠ "completed" := by
  decide

/-- C1 amended: `handle_call_status` stores the incoming event's
mapped status unconditionally: for every event that correlates to a
session present in the call table, the stored status afterwards — in
memory and in the database — is the mapped status of that event, so a
later terminal event overwrites the first-recorded terminal status
rather than being a no-op. -/
theorem terminal_status_overwritten
    (urlCallId callSid callStatus recordingUrl recordingSid : String)
    (now : Nat) (st : SysState) (cid : String) (info : CallInfo)
    (hres : resolveCallId urlCallId callSid st = some cid)
    (hmem : alGet st.call_history cid = some info) :
    (alGet (handle_call_status urlCallId callSid callStatus recordingUrl recordingSid
        now st).2.call_history cid).map CallInfo.status = some (statusMapping callStatus) ∧
    (dbGet (handle_call_status urlCallId callSid callStatus recordingUrl recordingSid
        now st).2.db cid).map CallRecord.status = some (statusMapping callStatus) := by
  unfold handle_call_status
  rw [hres]
  simp only [hmem, save_call_record]
  constructor
  · simp [alGet_alPut_self]
  · rw [dbGet_dbUpdateStatus_self, dbGet_dbPut_self' _ _ _ rfl]
    rfl

theorem terminal_status_overwritten_witness :
    (alGet (handle_call_status "c1" "CA1" "busy" "" "" 5 stTerminal).2.call_history "c1").map
        CallInfo.status = some (statusMapping "busy") ∧
    (dbGet (handle_call_status "c1" "CA1" "busy" "" "" 5 stTerminal).2.db "c1").map
        CallRecord.status = some (statusMapping "busy") :=
  terminal_status_overwritten "c1" "CA1" "busy" "" "" 5 stTerminal "c1" infoC1
    (by decide) (by decide)

/-- C7: session isolation as a frame property — handling a lifecycle
status event that correlates to session `x` leaves the `call_history`
entry, the `active_calls` entry and the database row of every other
session `y` unchanged. -/
theorem session_isolation_frame
    (urlCallId callSid callStatus recordingUrl recordingSid : String)
    (now : Nat) (st : SysState) (x y : String)
    (hres : resolveCallId urlCallId callSid st = some x) (hy : y ≠ x) :
    alGet (handle_call_status urlCallId callSid callStatus recordingUrl recordingSid
        now st).2.call_history y = alGet st.call_history y ∧
    alGet (handle_call_status urlCallId callSid callStatus recordingUrl recordingSid
        now st).2.active_calls y = alGet st.active_calls y ∧
    dbGet (handle_call_status urlCallId callSid callStatus recordingUrl recordingSid
        now st).2.db y = dbGet st.db y := by
  unfold handle_call_status
  rw [hres]
  refine ⟨?_, ?_, ?_⟩
  · cases hm : alGet st.call_history x with
    | none => simp [hm]
    | some info => simp [hm, alGet_alPut_ne _ _ _ _ hy]
  · have hdel : ∀ (c : Prop) (inst : Decidable c),
        alGet (if c then alDel st.active_calls x else st.active_calls) y
          = alGet st.active_calls y := by
      intro c inst
      split
      · exact alGet_alDel_ne _ _ _ hy
      · rfl
    simp [hdel]
  · simp only [save_call_record]
    rw [dbGet_dbUpdateStatus_ne _ _ _ _ _ hy, dbGet_dbPut_ne _ _ _ hy]

theorem session_isolation_frame_witness :
    alGet (handle_call_status "c1" "CA1" "completed" "" "" 9 stTwo).2.call_history "c2" =
      alGet stTwo.call_history "c2" ∧
    alGet (handle_call_status "c1" "CA1" "completed" "" "" 9 stTwo).2.active_calls "c2" =
      alGet stTwo.active_calls "c2" ∧
    dbGet (handle_call_status "c1" "CA1" "completed" "" "" 9 stTwo).2.db "c2" =
      dbGet stTwo.db "c2" :=
  session_isolation_frame "c1" "CA1" "completed" "" "" 9 stTwo "c1" "c2"
    (by decide) (by decide)

/-! ## The voice-handler claim -/

/-- C9: both `/handle_call` and `/handle_response` reach the call to
the undefined `ai_logic.store_ai_response` after generating a
response, so neither ever returns a TwiML voice response, and — for
every request carrying a `call_id` — both answer the `AttributeError`
as a JSON error with HTTP 500. -/
theorem voice_handlers_always_500 (callId leadId speechResult : String) (apiC : Bool)
    (gen : List (String × String) → Option String)
    (agentName companyName contactPerson : String) (memTurns : Nat) (now : Nat)
    (st : SysState) (mem : Mem) :
    ((handle_call callId leadId apiC gen agentName companyName contactPerson
        memTurns now st mem).1.isTwimlResp = false ∧
     (handle_call_response callId speechResult apiC gen agentName companyName contactPerson
        memTurns now st mem).1.isTwimlResp = false) ∧
    (callId ≠ "" →
      (handle_call callId leadId apiC gen agentName companyName contactPerson
          memTurns now st mem).1 = .jsonErr 500 "AttributeError" ∧
      (handle_call_response callId speechResult apiC gen agentName companyName contactPerson
          memTurns now st mem).1 = .jsonErr 500 "AttributeError") := by
  have hms : ailogicMethods.contains "store_ai_response" = false := by decide
  by_cases hc : callId = ""
  · subst hc
    exact ⟨⟨rfl, rfl⟩, fun h => absurd rfl h⟩
  · have hcb : (callId == "") = false := beq_eq_false_iff_ne.mpr hc
    have hms' : ¬ ("store_ai_response" ∈ ailogicMethods) := by decide
    refine ⟨⟨?_, ?_⟩, fun h => ⟨?_, ?_⟩⟩ <;>
      simp [handle_call, handle_call_response, hcb, hms, hms', HandlerResp.isTwimlResp]

theorem voice_handlers_always_500_witness :
    (handle_call "c1" "L1" false (fun _ => none) "Maayaa" "LoanCater" "Ryan" 5 0
        stTerminal memEmpty).1 = .jsonErr 500 "AttributeError" ∧
    (handle_call_response "c1" "yes" false (fun _ => none) "Maayaa" "LoanCater" "Ryan" 5 0
        stTerminal memEmpty).1 = .jsonErr 500 "AttributeError" :=
  (voice_handlers_always_500 "c1" "L1" "yes" false (fun _ => none) "Maayaa" "LoanCater"
    "Ryan" 5 0 stTerminal memEmpty).2 (by decide)

/-! ## The scheduler/dedup claim -/

/-- C4: `GHLIntegration` defines no `mark_lead_as_called`, so
`make_call` raises `AttributeError` after dialing: it returns `False`,
the `called_leads` dedup table is never written, and a later scheduler
tick's selection is unchanged — the lead is not excluded. -/
theorem dedup_set_never_written (lead : Lead) (sid : String) (now : Nat)
    (st : SysState) (leads : List Lead) :
    ghlMethods.contains "mark_lead_as_called" = false ∧
    (make_call lead (some sid) now st).1 = false ∧
    (make_call lead (some sid) now st).2.called_leads = st.called_leads ∧
    monitorSelectedLead leads (make_call lead (some sid) now st).2 =
      monitorSelectedLead leads st := by
  have hms : ghlMethods.contains "mark_lead_as_called" = false := by decide
  have hms' : ¬ ("mark_lead_as_called" ∈ ghlMethods) := by decide
  refine ⟨hms, ?_, ?_, ?_⟩ <;>
    simp [make_call, hms, hms', monitorSelectedLead, filter_available_leads]

/-! ## The configuration-wiring claim -/

/-- The success path of `generate_response`: when the provider call
returns text, the stripped text is returned and appended to the
conversation of `call_id`. -/
theorem generate_response_success
    (gen : List (String × String) → Option String) (raw : String)
    (agentName companyName contactPerson : String) (memTurns : Nat)
    (lead : Lead) (context call_id : String) (now : Nat) (mem : Mem)
    (hcid : call_id ≠ "")
    (hgen : gen (build_messages
        (promptUsed agentName companyName contactPerson lead mem call_id)
        context (mem call_id) agentName memTurns) = some raw) :
    generate_response true gen agentName companyName contactPerson memTurns
        lead context call_id now mem
      = (pyStrip raw,
         fun k => if k = call_id then mem call_id ++ [⟨agentName, pyStrip raw, now⟩] else mem k) := by
  unfold generate_response openaiCall
  simp [hgen, hcid]

/-- An environment setting exactly the five required credentials,
present in the process environment at start (hence also when
`import openai` runs). -/
def env5 : Env := fun n =>
  if n == "GHL_API_KEY" || n == "GHL_LOCATION_ID" || n == "OPENAI_API_KEY" ||
     n == "TWILIO_ACCOUNT_SID" || n == "TWILIO_AUTH_TOKEN"
  then some "secret" else none

/-- A provider oracle that answers every request. -/
def genHello : List (String × String) → Option String :=
  fun _ => some "Hi there, do you have a quick moment?"

/-- C8 counterexample: a configuration accepted by `load_config`
(`env5` sets the five required variables, `OPENAI_API_KEY` among
them) on which a `generate_response` call does *not* return the
apology fallback: `openai.ChatCompletion.create` uses the
module-level key the openai 0.x client took from the process
environment — never `AILogic`'s mis-wired attribute — so with a
successful provider call the generated text is returned (and a turn
appended). -/
theorem apology_fallback_counterexample :
    load_config env5 = some (mergedConfig env5) ∧
    (generate_response
        (openaiModuleKey (envOr env5 "OPENAI_API_KEY" "")
          ((mergedConfig env5).getDict "ai_settings") != "")
        genHello "Maayaa" "LoanCater" "Ryan" 5 leadEmpty "" "c1" 0 memEmpty).1
      = "Hi there, do you have a quick moment?" ∧
    (generate_response
        (openaiModuleKey (envOr env5 "OPENAI_API_KEY" "")
          ((mergedConfig env5).getDict "ai_settings") != "")
        genHello "Maayaa" "LoanCater" "Ryan" 5 leadEmpty "" "c1" 0 memEmpty).1
      ≠ apologyText ∧
    ((generate_response
        (openaiModuleKey (envOr env5 "OPENAI_API_KEY" "")
          ((mergedConfig env5).getDict "ai_settings") != "")
        genHello "Maayaa" "LoanCater" "Ryan" 5 leadEmpty "" "c1" 0 memEmpty).2 "c1").length = 1 := by
  refine ⟨rfl, by decide, by decide, by decide⟩

/-- C8 amended: `create_app` hands each component only its own
configuration sub-dictionary and every component then looks its
section up by name *inside* that sub-dictionary, so for every
configuration accepted by `load_config` the components observe no
credentials — the three `is_configured()` all return false and
`get_leads` always returns the dummy-lead list.  But
`generate_response` is not thereby forced to the apology fallback:
the mis-wired `AILogic` never installs its key, so the module-level
`openai.api_key` stays whatever the openai 0.x client read from the
`OPENAI_API_KEY` process environment variable at import — a variable
every accepted configuration sets — and when that variable is in the
process environment, a successful provider call makes
`generate_response` return and append the generated text.  (Only when
the key arrives solely via a `.env` file loaded after the import is
the module key unset and generation always falls back.) -/
theorem wiring_bug_components_unconfigured (env : Env) (cfg : JVal)
    (hload : load_config env = some cfg) :
    ai_is_configured (cfg.getDict "ai_settings") = false ∧
    ghl_is_configured (cfg.getDict "ghl") = false ∧
    twilio_is_configured (cfg.getDict "twilio") = false ∧
    (∀ apiResult : Option JVal,
      ghl_get_leads (ghl_is_configured (cfg.getDict "ghl")) apiResult (cfg.getDict "ghl")
        = get_dummy_leads (cfg.getDict "ghl")) ∧
    (∀ importKey : String,
      openaiModuleKey importKey (cfg.getDict "ai_settings") = importKey) ∧
    envOr env "OPENAI_API_KEY" "" ≠ "" ∧
    (∀ (gen : List (String × String) → Option String) (raw : String)
       (agentName companyName contactPerson : String) (memTurns : Nat)
       (lead : Lead) (context call_id : String) (now : Nat) (mem : Mem),
      call_id ≠ "" →
      gen (build_messages
        (promptUsed agentName companyName contactPerson lead mem call_id)
        context (mem call_id) agentName memTurns) = some raw →
      generate_response
          (openaiModuleKey (envOr env "OPENAI_API_KEY" "") (cfg.getDict "ai_settings") != "")
          gen agentName companyName contactPerson memTurns lead context call_id now mem
        = (pyStrip raw,
           fun k => if k = call_id then mem call_id ++ [⟨agentName, pyStrip raw, now⟩] else mem k)) := by
  unfold load_config at hload
  by_cases hv : validateRequiredKeys (mergedConfig env)
  case neg => simp [hv] at hload
  case pos =>
  simp [hv] at hload
  subst hload
  have hai : ai_is_configured ((mergedConfig env).getDict "ai_settings") = false := rfl
  have hghl : ghl_is_configured ((mergedConfig env).getDict "ghl") = false := rfl
  have htw : twilio_is_configured ((mergedConfig env).getDict "twilio") = false := rfl
  have hmod : ∀ importKey : String,
      openaiModuleKey importKey ((mergedConfig env).getDict "ai_settings") = importKey :=
    fun _ => rfl
  have hkeyB : (envOr env "OPENAI_API_KEY" "" != "") = true := by
    have h3 := hv
    unfold validateRequiredKeys at h3
    simp only [Bool.and_eq_true] at h3
    exact h3.1.1.2
  refine ⟨hai, hghl, htw, ?_, hmod, by simpa using hkeyB, ?_⟩
  · intro apiResult
    rw [hghl]
    rfl
  · intro gen raw agentName companyName contactPerson memTurns lead context call_id now mem
      hcid hgen
    rw [hmod, show (envOr env "OPENAI_API_KEY" "" != "") = true from hkeyB]
    exact generate_response_success gen raw agentName companyName contactPerson memTurns
      lead context call_id now mem hcid hgen

theorem wiring_bug_components_unconfigured_witness :
    load_config env5 = some (mergedConfig env5) ∧
    ai_is_configured ((mergedConfig env5).getDict "ai_settings") = false ∧
    ghl_is_configured ((mergedConfig env5).getDict "ghl") = false ∧
    twilio_is_configured ((mergedConfig env5).getDict "twilio") = false ∧
    envOr env5 "OPENAI_API_KEY" "" ≠ "" ∧
    (generate_response
        (openaiModuleKey (envOr env5 "OPENAI_API_KEY" "")
          ((mergedConfig env5).getDict "ai_settings") != "")
        genHello "Maayaa" "LoanCater" "Ryan" 5 leadEmpty "" "c1" 0 memEmpty).1
      = "Hi there, do you have a quick moment?" := by
  have h := wiring_bug_components_unconfigured env5 (mergedConfig env5) rfl
  refine ⟨rfl, h.1, h.2.1, h.2.2.1, h.2.2.2.2.2.1, ?_⟩
  have h7 := h.2.2.2.2.2.2 genHello "Hi there, do you have a quick moment?" "Maayaa"
    "LoanCater" "Ryan" 5 leadEmpty "" "c1" 0 memEmpty (by decide) rfl
  rw [h7]
  decide

theorem outcome_classifier_precedence_witness :
    analyze_conversation_outcome defaultAgentName scenario8 = "positive_meeting" :=
  (outcome_classifier_precedence defaultAgentName scenario8).1.mpr
    ⟨by unfold PositiveResponseP; decide, by unfold MeetingScheduledP; decide⟩
